import Mathlib

/-!
Verification development for `vbench/cmd_benchmark.py`, a benchmark-execution
harness.  The module defines `CmdBenchmark` (construction normalizes the
`code`/`setup`/`cleanup` commands, which may be strings or token lists), a
`run` lifecycle (setup, `repeat` measured iterations, aggregation, cleanup in a
`finally` block), three measurement variants (timing, pattern extraction via
`CmdGrepBenchmark`, multi-series profiling via `CmdPerfBenchmark`), and a
`checksum` fingerprint (md5 of a space-joined rendering of the static fields).

The embedding models child processes, the wall clock, the regex engine and the
float parser as injected oracles (they are external boundaries in the source:
`subprocess`, `timeit`, `re`, `float`), and models Python exception flow
explicitly: a run either returns a list of records or raises, and the report
also counts how many `_exec` calls happened and how many times the cleanup
command was spawned.  Measured values are embedded as exact rationals.
-/

namespace Vbench

/-- Environment mapping (Python `dict` with string keys and values),
kept as an ordered association list. -/
def Env : Type := List (String × String)

instance : DecidableEq Env := by
  unfold Env
  infer_instance

/-- Character-level worker for Python `str.split()`: `cur` holds the current
token's characters in reverse; a whitespace character closes the current
token (if any), and runs of whitespace produce no empty tokens. -/
def wsSplitAux : List Char → List Char → List String
  | [], cur => if cur = [] then [] else [String.mk cur.reverse]
  | c :: rest, cur =>
      if c.isWhitespace then
        if cur = [] then wsSplitAux rest []
        else String.mk cur.reverse :: wsSplitAux rest []
      else wsSplitAux rest (c :: cur)

/-- Python `str.split()` with no separator: split on runs of whitespace,
discarding empty pieces.  This is the tokenizer `__init__` applies to
string-form commands (`code.split()`). -/
def pySplitWS (s : String) : List String :=
  wsSplitAux s.toList []

/-- Python `' '.join(tokens)`. -/
def spaceJoin (l : List String) : String :=
  String.intercalate " " l

/-- Python `str(d)` on an environment dict: `None` or a braced rendering.
The exact dict rendering only matters for being a fixed deterministic
function of the mapping; the braces and quotes are written as escapes. -/
def pyStrEnv : Option Env → String
  | none => "None"
  | some d =>
      "\x7b" ++
        String.intercalate ", "
          (d.map (fun kv => "\x27" ++ kv.1 ++ "\x27: \x27" ++ kv.2 ++ "\x27"))
        ++ "\x7d"

/-- A command argument as accepted by `CmdBenchmark.__init__`: either a single
string (later whitespace-tokenized) or an already-tokenized list. -/
def CmdArg : Type := Sum String (List String)

/-- `code.split() if isinstance(code, str) else code`. -/
def normalizeCmd : CmdArg → List String
  | Sum.inl s => pySplitWS s
  | Sum.inr l => l

/-- Normalization of the optional `setup`/`cleanup` arguments (`None` stays
`None`; a string is tokenized; a list passes through). -/
def normalizeOptCmd : Option CmdArg → Option (List String)
  | none => none
  | some c => some (normalizeCmd c)

/-- The state of a constructed `CmdBenchmark`: the fields `__init__` stores.
`repeatN` embeds the Python attribute `repeat` (a Lean keyword). -/
structure CmdBenchmark where
  name : String
  code : List String
  code_env : Option Env
  repeatN : Nat
  setup : Option (List String)
  setup_env : Option Env
  cleanup : Option (List String)
  cleanup_env : Option Env
  deriving DecidableEq

/-- `CmdBenchmark.__init__`: stores the fields after tokenizing string-form
commands.  The source performs no validation whatsoever: any `code`
(including an empty list) and any `repeat` value are accepted. -/
def mkCmdBenchmark (name : String) (code : CmdArg) (code_env : Option Env)
    (repeatN : Nat) (setup : Option CmdArg) (setup_env : Option Env)
    (cleanup : Option CmdArg) (cleanup_env : Option Env) : CmdBenchmark :=
  ⟨name, normalizeCmd code, code_env, repeatN,
   normalizeOptCmd setup, setup_env, normalizeOptCmd cleanup, cleanup_env⟩

/-- Python truthiness of an optional token list (`if self.setup:`):
`None` and the empty list are falsy. -/
def truthyCmd : Option (List String) → Bool
  | some (_ :: _) => true
  | _ => false

/-- One field of the checksum tuple for `setup`/`cleanup`:
`' '.join(x) if x else str(x)` — joined tokens when truthy, otherwise the
`str` of `None` or of the empty list. -/
def checksumField : Option (List String) → String
  | some (x :: xs) => spaceJoin (x :: xs)
  | some [] => "[]"
  | none => "None"

/-- The string that `CmdBenchmark.checksum` feeds to md5:
`' '.join((name, setupField, str(setup_env), ' '.join(code), str(code_env),
cleanupField, str(cleanup_env)))`.  The fingerprint is the md5 hex digest of
this string; since md5 is a fixed deterministic function, fingerprint
equality is decided by this pre-hash string, and the field/token-boundary
structure of the fingerprint is entirely visible here. -/
def checksumInput (b : CmdBenchmark) : String :=
  String.intercalate " "
    [b.name,
     checksumField b.setup,
     pyStrEnv b.setup_env,
     spaceJoin b.code,
     pyStrEnv b.code_env,
     checksumField b.cleanup,
     pyStrEnv b.cleanup_env]

/-- Result of one `subprocess.check_output` call: captured output on success,
or an exception (non-zero exit raises `CalledProcessError`, a spawn failure
raises `OSError`) carrying its diagnostic text. -/
inductive ProcRes where
  | ok (output : String)
  | exn (diag : String)
  deriving DecidableEq

/-- Result of one `_exec(ctx)` call: a measured value, or an exception. -/
inductive ExecRes (α : Type) where
  | ok (v : α)
  | exn (diag : String)
  deriving DecidableEq

/-- What a call to `run()` does: return a list of records, or raise. -/
inductive RunOutcome (ρ : Type) where
  | returns (records : List ρ)
  | raises (diag : String)
  deriving DecidableEq

/-- Observable report of one `run()` call: its outcome, the number of `_exec`
invocations performed, and the number of times the cleanup command was
actually spawned. -/
structure RunReport (ρ : Type) where
  outcome : RunOutcome ρ
  iterations : Nat
  cleanupCalls : Nat
  deriving DecidableEq

/-- The text `_error(ctx)` produces: `traceback.print_exc` output, which ends
with the active exception's rendering `msg`. -/
def pyTraceback (msg : String) : String :=
  "Traceback (most recent call last):\n" ++ msg

/-- The exception raised in the `finally` block when `ctx = self._setup()`
itself raised: `self._cleanup(ctx)` reads the never-assigned local `ctx`. -/
def unboundLocalMsg : String :=
  "UnboundLocalError: local variable \x27ctx\x27 referenced before assignment"

/-- Python builtin `min` over the measured values (never called on an empty
sequence along this path: `run()` reaches the empty case through the
`ValueError` branch modelled in `aggregate`). -/
def listMin : List ℚ → ℚ
  | [] => 0
  | x :: xs => List.foldl min x xs

/-- Python builtin `max` over the measured values. -/
def listMax : List ℚ → ℚ
  | [] => 0
  | x :: xs => List.foldl max x xs

/-- `numpy.mean`: arithmetic mean. -/
def pyMean (l : List ℚ) : ℚ :=
  l.sum / (l.length : ℚ)

/-- Insertion step of an ascending insertion sort. -/
def insertSorted (x : ℚ) : List ℚ → List ℚ
  | [] => [x]
  | y :: ys => if x ≤ y then x :: y :: ys else y :: insertSorted x ys

/-- Ascending sort of the measurements (what `numpy.median` sorts). -/
def sortQ (l : List ℚ) : List ℚ :=
  List.foldr insertSorted [] l

/-- `numpy.median`: middle element of the sorted list for odd length, mean of
the two middle elements for even length. -/
def pyMedian (l : List ℚ) : ℚ :=
  let s := sortQ l
  let n := s.length
  if n % 2 = 1 then s.getD (n / 2) 0
  else (s.getD (n / 2 - 1) 0 + s.getD (n / 2) 0) / 2

/-- The population variance (`ddof=0`): `numpy.std(timings)` is the square
root of this value.  The record stores this exact radicand; the emitted
standard deviation is its real square root. -/
def pyVar (l : List ℚ) : ℚ :=
  let m := pyMean l
  (l.map (fun x => (x - m) ^ 2)).sum / (l.length : ℚ)

/-- The aggregate-success record of a scalar run
(`timing_min/max/mean/median/std`); `timing_var` is the exact radicand of
the emitted `timing_std`. -/
structure AggRecord where
  timing_min : ℚ
  timing_max : ℚ
  timing_mean : ℚ
  timing_median : ℚ
  timing_var : ℚ
  deriving DecidableEq

/-- A record emitted by the scalar `run()`: `succeeded: True` with aggregate
statistics, or `succeeded: False` with a traceback. -/
inductive ScalarRecord where
  | success (r : AggRecord)
  | failure (traceback : String)
  deriving DecidableEq

/-- A record emitted by `CmdPerfBenchmark.run()`: a `succeeded: True` series
sample, or a `succeeded: False` failure record. -/
inductive PerfRecord where
  | sample (series_name : String) (series_value : String)
  | failure (traceback : String)
  deriving DecidableEq

/-- The iteration loop `for k in xrange(repeat): acc-collect _exec(ctx)`:
collects the per-iteration results in order, or stops at the first
iteration whose `_exec` raises, reporting its index and diagnostic.
`execs` is the oracle giving iteration `k`'s `_exec` result. -/
def execLoop {α : Type} (execs : Nat → ExecRes α) :
    Nat → Nat → List α → Sum (List α) (Nat × String)
  | _, 0, acc => Sum.inl acc.reverse
  | k, n + 1, acc =>
      match execs k with
      | ExecRes.ok v => execLoop execs (k + 1) n (v :: acc)
      | ExecRes.exn d => Sum.inr (k, d)

/-- The success branch of the inner `try`: build the aggregate record.  With
zero measurements, Python's `min(timings)` raises `ValueError` inside the
`try`, so the catch-all `except` turns it into a failure record. -/
def aggregate (vals : List ℚ) : ScalarRecord :=
  match vals with
  | [] => ScalarRecord.failure (pyTraceback "ValueError: min() arg is an empty sequence")
  | v :: vs =>
      ScalarRecord.success
        ⟨listMin (v :: vs), listMax (v :: vs), pyMean (v :: vs),
         pyMedian (v :: vs), pyVar (v :: vs)⟩

/-- The `finally: self._cleanup(ctx)` block when `ctx` is bound: if the
cleanup command is truthy it is spawned once; a cleanup exception replaces
the pending outcome (return value or exception) of the `try` body. -/
def finallyCleanup {ρ : Type} (b : CmdBenchmark) (cleanupRes : ProcRes)
    (pending : RunOutcome ρ) (iters : Nat) : RunReport ρ :=
  if truthyCmd b.cleanup then
    match cleanupRes with
    | ProcRes.ok _ => ⟨pending, iters, 1⟩
    | ProcRes.exn d => ⟨RunOutcome.raises d, iters, 1⟩
  else ⟨pending, iters, 0⟩

/-- `self._setup()`: spawns the setup command only when it is truthy;
`setupRes` is the oracle for that spawn. -/
def setupOutcome (b : CmdBenchmark) (setupRes : ProcRes) : ProcRes :=
  if truthyCmd b.setup then setupRes else ProcRes.ok ""

/-- `CmdBenchmark.run()` (shared by the timing and grep variants).  Oracles:
`setupRes` for the setup spawn, `execs` for each iteration's `_exec`,
`cleanupRes` for the cleanup spawn.

Control flow translated from the source: the outer `try` runs
`ctx = self._setup()`; if that raises, the inner `try/except` is never
entered and the `finally` block's `self._cleanup(ctx)` reads the unbound
local `ctx`, raising `UnboundLocalError` before any cleanup spawn — the run
raises and no record is returned.  Otherwise the inner `try` fills
`timings`; on full success it returns one aggregate record (or, for zero
iterations, the `except` branch catches `min`'s `ValueError`); the first
failing iteration short-circuits to the `except` branch, which returns one
failure record with the traceback.  The `finally` block then spawns the
cleanup command (when truthy) exactly once. -/
def pyRun (b : CmdBenchmark) (setupRes : ProcRes) (execs : Nat → ExecRes ℚ)
    (cleanupRes : ProcRes) : RunReport ScalarRecord :=
  match setupOutcome b setupRes with
  | ProcRes.exn _ => ⟨RunOutcome.raises unboundLocalMsg, 0, 0⟩
  | ProcRes.ok _ =>
      match execLoop execs 0 b.repeatN [] with
      | Sum.inl vals =>
          finallyCleanup b cleanupRes
            (RunOutcome.returns [aggregate vals]) b.repeatN
      | Sum.inr kd =>
          finallyCleanup b cleanupRes
            (RunOutcome.returns [ScalarRecord.failure (pyTraceback kd.2)])
            (kd.1 + 1)

/-- `CmdTimingBenchmark._exec`: spawn `code` under `code_env`; on success the
measurement is the elapsed wall-clock time (`elapsed`, from the clock
oracle); a spawn error or non-zero exit raises. -/
def timingExec (proc : ProcRes) (elapsed : ℚ) : ExecRes ℚ :=
  match proc with
  | ProcRes.ok _ => ExecRes.ok elapsed
  | ProcRes.exn d => ExecRes.exn d

/-- `CmdGrepBenchmark._exec`: spawn `code` capturing stdout+stderr combined;
`pat` is the pattern oracle (first match's first capture group, the
external regex boundary), `parseFloat` the `float()` oracle.  A match
yields the parsed group; no match raises `Exception('no match!')`. -/
def grepExec (pat : String → Option String) (parseFloat : String → Option ℚ)
    (proc : ProcRes) : ExecRes ℚ :=
  match proc with
  | ProcRes.exn d => ExecRes.exn d
  | ProcRes.ok out =>
      match pat out with
      | some g =>
          match parseFloat g with
          | some v => ExecRes.ok v
          | none => ExecRes.exn ("ValueError: could not convert string to float: " ++ g)
      | none => ExecRes.exn "Exception: no match!"

/-- Python dict assignment `event[k] = v`: overwrite in place, else append. -/
def pyDictInsert (ev : List (String × String)) (k v : String) :
    List (String × String) :=
  if ev.any (fun kv => kv.1 = k) then
    ev.map (fun kv => if kv.1 = k then (k, v) else kv)
  else ev ++ [(k, v)]

/-- Character-level worker for Python `str.split(sep)` with a one-character
separator: split at every occurrence, keeping empty pieces. -/
def charSplitAux (sep : Char) : List Char → List Char → List String
  | [], cur => [String.mk cur.reverse]
  | c :: rest, cur =>
      if c = sep then String.mk cur.reverse :: charSplitAux sep rest []
      else charSplitAux sep rest (c :: cur)

/-- Python `str.split(sep)` for the one-character separators the source uses
(`'\n'` for output lines, `','` for fields): empty pieces are kept, and
the empty string splits to `[""]`. -/
def pySplitChar (sep : Char) (s : String) : List String :=
  charSplitAux sep s.toList []

/-- One line of perf output: `col = line.split(',')`;
`if len(col) >= 2: event[col[1]] = col[0]`, otherwise the line is skipped. -/
def parsePerfLine (ev : List (String × String)) (line : String) :
    List (String × String) :=
  match pySplitChar ',' line with
  | v :: k :: _ => pyDictInsert ev k v
  | _ => ev

/-- `CmdPerfBenchmark._exec`'s parsing: `output.split('\n')` folded through
`parsePerfLine`, building the per-iteration `event` dict. -/
def parsePerf (output : String) : List (String × String) :=
  (pySplitChar (Char.ofNat 0x0A) output).foldl parsePerfLine []

/-- `CmdPerfBenchmark._exec`: spawn `perf + code` under `code_env`; on
success, parse the captured output into the event dict. -/
def perfExec (proc : ProcRes) : ExecRes (List (String × String)) :=
  match proc with
  | ProcRes.ok out => ExecRes.ok (parsePerf out)
  | ProcRes.exn d => ExecRes.exn d

/-- The records `CmdPerfBenchmark.run` appends for one iteration's event
dict: one `succeeded: True` sample per entry. -/
def perfSamples (ev : List (String × String)) : List PerfRecord :=
  ev.map (fun kv => PerfRecord.sample kv.1 kv.2)

/-- `CmdPerfBenchmark.run()`: same lifecycle as `pyRun` (including the
unbound-`ctx` behaviour when setup raises), but each successful iteration
contributes one sample record per series key, with no aggregation; the
first failing iteration discards all accumulated samples and returns one
failure record. -/
def pyRunPerf (b : CmdBenchmark) (setupRes : ProcRes)
    (execs : Nat → ExecRes (List (String × String)))
    (cleanupRes : ProcRes) : RunReport PerfRecord :=
  match setupOutcome b setupRes with
  | ProcRes.exn _ => ⟨RunOutcome.raises unboundLocalMsg, 0, 0⟩
  | ProcRes.ok _ =>
      match execLoop execs 0 b.repeatN [] with
      | Sum.inl evs =>
          finallyCleanup b cleanupRes
            (RunOutcome.returns (evs.flatMap perfSamples)) b.repeatN
      | Sum.inr kd =>
          finallyCleanup b cleanupRes
            (RunOutcome.returns [PerfRecord.failure (pyTraceback kd.2)])
            (kd.1 + 1)

/-! ### Helper lemmas about the iteration loop -/

/-- When every iteration's `_exec` succeeds, the loop collects the values of
all `n` scheduled iterations, in order. -/
theorem execLoop_ok {α : Type} (f : Nat → α) (execs : Nat → ExecRes α)
    (hf : ∀ k, execs k = ExecRes.ok (f k)) :
    ∀ (n start : Nat) (acc : List α),
      execLoop execs start n acc =
        Sum.inl (acc.reverse ++ (List.range n).map (fun i => f (start + i))) := by
  intro n
  induction n with
  | zero => intro start acc; simp [execLoop]
  | succ n ih =>
      intro start acc
      have hstep : execLoop execs start (n + 1) acc =
          execLoop execs (start + 1) n (f start :: acc) := by
        simp [execLoop, hf start]
      rw [hstep, ih (start + 1) (f start :: acc)]
      have hfun : (fun i => f (start + 1 + i)) = (fun i => f (start + Nat.succ i)) := by
        funext i
        congr 1
        omega
      simp [List.range_succ_eq_map, List.map_map, Function.comp, hfun]

/-- If the first `i` iterations succeed and iteration `i` raises, the loop
stops at iteration `i` with its diagnostic (for any schedule `n > i`). -/
theorem execLoop_exn {α : Type} (execs : Nat → ExecRes α) (d : String) :
    ∀ (i n start : Nat) (acc : List α),
      (∀ j, j < i → ∃ v, execs (start + j) = ExecRes.ok v) →
      execs (start + i) = ExecRes.exn d →
      i < n →
      execLoop execs start n acc = Sum.inr (start + i, d) := by
  intro i
  induction i with
  | zero =>
      intro n start acc hok hexn hlt
      cases n with
      | zero => omega
      | succ m =>
          simp only [Nat.add_zero] at hexn
          simp [execLoop, hexn]
  | succ i ih =>
      intro n start acc hok hexn hlt
      cases n with
      | zero => omega
      | succ m =>
          obtain ⟨v, hv⟩ := hok 0 (Nat.succ_pos i)
          simp only [Nat.add_zero] at hv
          have hstep : execLoop execs start (m + 1) acc =
              execLoop execs (start + 1) m (v :: acc) := by
            simp [execLoop, hv]
          have hok2 : ∀ j, j < i → ∃ w, execs (start + 1 + j) = ExecRes.ok w := by
            intro j hj
            have harg : start + 1 + j = start + (j + 1) := by omega
            rw [harg]
            exact hok (j + 1) (by omega)
          have hexn2 : execs (start + 1 + i) = ExecRes.exn d := by
            have harg : start + 1 + i = start + (i + 1) := by omega
            rw [harg]
            exact hexn
          have htail := ih m (start + 1) (v :: acc) hok2 hexn2 (by omega)
          rw [hstep, htail]
          have harg : start + 1 + i = start + (i + 1) := by omega
          rw [harg]

/-- Reading a list back out of itself through `getD` over `List.range`. -/
theorem range_map_getD {α : Type} (d : α) (vs : List α) :
    (List.range vs.length).map (fun i => vs.getD i d) = vs := by
  induction vs with
  | nil => simp
  | cons v tl ih =>
      simp only [List.length_cons, List.range_succ_eq_map, List.map_cons, List.map_map,
        Function.comp, List.getD_cons_zero, List.getD_cons_succ]
      exact congrArg (v :: ·) ih

/-- Reduction of the scalar `run` when the setup spawn succeeds: the report
is determined by the iteration loop, and the cleanup command is spawned
exactly once when truthy. -/
theorem pyRun_ok_setup (b : CmdBenchmark) (sout cout : String)
    (execs : Nat → ExecRes ℚ) :
    pyRun b (ProcRes.ok sout) execs (ProcRes.ok cout) =
      match execLoop execs 0 b.repeatN [] with
      | Sum.inl vals =>
          ⟨RunOutcome.returns [aggregate vals], b.repeatN,
            if truthyCmd b.cleanup then 1 else 0⟩
      | Sum.inr kd =>
          ⟨RunOutcome.returns [ScalarRecord.failure (pyTraceback kd.2)], kd.1 + 1,
            if truthyCmd b.cleanup then 1 else 0⟩ := by
  cases hs : truthyCmd b.setup <;> cases hc : truthyCmd b.cleanup <;>
    cases hl : execLoop execs 0 b.repeatN [] <;>
      simp [pyRun, setupOutcome, finallyCleanup, hs, hc, hl]

/-- Reduction of the perf `run` when the setup spawn succeeds. -/
theorem pyRunPerf_ok_setup (b : CmdBenchmark) (sout cout : String)
    (execs : Nat → ExecRes (List (String × String))) :
    pyRunPerf b (ProcRes.ok sout) execs (ProcRes.ok cout) =
      match execLoop execs 0 b.repeatN [] with
      | Sum.inl evs =>
          ⟨RunOutcome.returns (evs.flatMap perfSamples), b.repeatN,
            if truthyCmd b.cleanup then 1 else 0⟩
      | Sum.inr kd =>
          ⟨RunOutcome.returns [PerfRecord.failure (pyTraceback kd.2)], kd.1 + 1,
            if truthyCmd b.cleanup then 1 else 0⟩ := by
  cases hs : truthyCmd b.setup <;> cases hc : truthyCmd b.cleanup <;>
    cases hl : execLoop execs 0 b.repeatN [] <;>
      simp [pyRunPerf, setupOutcome, finallyCleanup, hs, hc, hl]

/-! ### Claim theorems -/

/-- C1: the claim says a failing setup command yields exactly one `Failure`
record, zero measured iterations, and exactly one cleanup invocation.  The
code disagrees: when `ctx = self._setup()` raises, the `finally` block's
`self._cleanup(ctx)` reads the never-assigned local `ctx`, so `run()`
raises `UnboundLocalError` — it returns no record at all and the cleanup
command is never spawned (zero iterations do hold).  This theorem evaluates
both `run` implementations at such a failing input, exhibiting the crash. -/
theorem setup_failure_crashes_run :
    pyRun
        (mkCmdBenchmark "bench" (Sum.inr ["prog"]) none 3
          (some (Sum.inr ["setup-cmd"])) none (some (Sum.inr ["cleanup-cmd"])) none)
        (ProcRes.exn "CalledProcessError: Command setup-cmd returned non-zero exit status 1")
        (fun _ => ExecRes.ok 1) (ProcRes.ok "") =
      ⟨RunOutcome.raises unboundLocalMsg, 0, 0⟩ ∧
    pyRunPerf
        (mkCmdBenchmark "bench" (Sum.inr ["prog"]) none 3
          (some (Sum.inr ["setup-cmd"])) none (some (Sum.inr ["cleanup-cmd"])) none)
        (ProcRes.exn "OSError: No such file or directory")
        (fun _ => ExecRes.ok []) (ProcRes.ok "") =
      ⟨RunOutcome.raises unboundLocalMsg, 0, 0⟩ :=
  ⟨rfl, rfl⟩

/-- C2 counterexample: the claim says constructing a `CmdBenchmark` with an
empty `code` sequence or `repeat < 1` fails with a `ConfigError`.  The
source `__init__` contains no validation at all (and its docstring even
declares `repeat` "nonnegative"): construction with empty `code` and
`repeat = 0` completes normally and stores exactly those values. -/
theorem construction_accepts_invalid :
    (mkCmdBenchmark "b" (Sum.inr []) none 0 none none none none).code = [] ∧
    (mkCmdBenchmark "b" (Sum.inr []) none 0 none none none none).repeatN = 0 :=
  ⟨rfl, rfl⟩

/-- C2 (amended): construction performs no validation — every `code` and
`repeat` value is accepted and stored as given — and malformed specs fail
only at run time: an empty command fails when spawned (the spawn error is
caught into a `Failure` record), and `repeat = 0` fails during aggregation
(`min` of the empty measurement sequence). -/
theorem construction_never_validates (name : String) (code : CmdArg)
    (code_env : Option Env) (repeatN : Nat) (setup cleanup : Option CmdArg)
    (setup_env cleanup_env : Option Env) :
    (mkCmdBenchmark name code code_env repeatN setup setup_env cleanup cleanup_env).code =
      normalizeCmd code ∧
    (mkCmdBenchmark name code code_env repeatN setup setup_env cleanup cleanup_env).repeatN =
      repeatN ∧
    (pyRun (mkCmdBenchmark name (Sum.inr []) code_env 3 none none none none)
        (ProcRes.ok "")
        (fun _ => ExecRes.exn "OSError: [Errno 2] No such file or directory")
        (ProcRes.ok "")).outcome =
      RunOutcome.returns
        [ScalarRecord.failure (pyTraceback "OSError: [Errno 2] No such file or directory")] ∧
    (pyRun (mkCmdBenchmark name code code_env 0 none none none none)
        (ProcRes.ok "") (fun _ => ExecRes.ok 1) (ProcRes.ok "")).outcome =
      RunOutcome.returns
        [ScalarRecord.failure (pyTraceback "ValueError: min() arg is an empty sequence")] :=
  ⟨rfl, rfl, rfl, rfl⟩

/-- C5: the checksum string is built only from `name`, `setup`, `setup_env`,
`code`, `code_env`, `cleanup` and `cleanup_env`; `repeat` never enters it,
so two specs identical except for `repeat` feed the identical string to
md5 and receive the identical fingerprint. -/
theorem checksum_ignores_repeat (name : String) (code : CmdArg)
    (code_env : Option Env) (setup cleanup : Option CmdArg)
    (setup_env cleanup_env : Option Env) (r1 r2 : Nat) :
    checksumInput (mkCmdBenchmark name code code_env r1 setup setup_env cleanup cleanup_env) =
      checksumInput (mkCmdBenchmark name code code_env r2 setup setup_env cleanup cleanup_env) :=
  rfl

/-- C6: a string-form command and its whitespace-split token list normalize
to the same token sequence, hence equal benchmarks fields and the same
checksum string (so the same fingerprint); the rule applies to `code`,
`setup` and `cleanup` alike, and `"foo bar"` tokenizes to
`["foo", "bar"]`. -/
theorem string_and_list_forms_agree (name s : String) (code_env : Option Env)
    (r : Nat) (setup cleanup : Option CmdArg) (setup_env cleanup_env : Option Env) :
    (mkCmdBenchmark name (Sum.inl s) code_env r setup setup_env cleanup cleanup_env).code =
      (mkCmdBenchmark name (Sum.inr (pySplitWS s)) code_env r setup setup_env cleanup
        cleanup_env).code ∧
    checksumInput
        (mkCmdBenchmark name (Sum.inl s) code_env r setup setup_env cleanup cleanup_env) =
      checksumInput
        (mkCmdBenchmark name (Sum.inr (pySplitWS s)) code_env r setup setup_env cleanup
          cleanup_env) ∧
    (∀ t : String, normalizeCmd (Sum.inl t) = normalizeCmd (Sum.inr (pySplitWS t))) ∧
    (∀ t : String,
      normalizeOptCmd (some (Sum.inl t)) = normalizeOptCmd (some (Sum.inr (pySplitWS t)))) ∧
    pySplitWS "foo bar" = ["foo", "bar"] := by
  refine ⟨rfl, rfl, fun t => rfl, fun t => rfl, ?_⟩
  decide

/-- C9 counterexample: the claim asserts that field boundaries are erased
before hashing, so that `(setup=["s","a"], code=["c"])` and
`(setup=["s"], code=["a","c"])` collide.  They do not: the rendering of
`setup_env` (here `"None"`) is interposed between the joined `setup` and
`code` tokens, so the two md5 inputs are the distinct strings
`"n s a None c …"` and `"n s None a c …"`. -/
theorem checksum_field_shift_differs :
    (mkCmdBenchmark "n" (Sum.inr ["c"]) none 3 (some (Sum.inr ["s", "a"])) none none
        none).code ≠
      (mkCmdBenchmark "n" (Sum.inr ["a", "c"]) none 3 (some (Sum.inr ["s"])) none none
        none).code ∧
    checksumInput
        (mkCmdBenchmark "n" (Sum.inr ["c"]) none 3 (some (Sum.inr ["s", "a"])) none none
          none) ≠
      checksumInput
        (mkCmdBenchmark "n" (Sum.inr ["a", "c"]) none 3 (some (Sum.inr ["s"])) none none
          none) := by
  refine ⟨?_, ?_⟩ <;> decide

/-- C9 (amended): token boundaries within one field are erased — the checksum
space-joins each command's tokens, so the distinct `code` values
`["a", "b"]` and `["a b"]` feed the identical string to md5 and collide —
but the claimed cross-field collision fails because the `str(env)`
renderings separate the joined fields (see the counterexample). -/
theorem checksum_token_boundary_collision :
    (mkCmdBenchmark "n" (Sum.inr ["a", "b"]) none 3 none none none none).code ≠
      (mkCmdBenchmark "n" (Sum.inr ["a b"]) none 3 none none none none).code ∧
    checksumInput (mkCmdBenchmark "n" (Sum.inr ["a", "b"]) none 3 none none none none) =
      checksumInput (mkCmdBenchmark "n" (Sum.inr ["a b"]) none 3 none none none none) := by
  refine ⟨?_, rfl⟩
  decide

/-- C10: a scalar benchmark constructed with `repeat = 0` (accepted by the
validation-free constructor) runs zero iterations; the aggregation then
evaluates `min` of the empty measurement sequence, whose `ValueError` the
catch-all `except` converts into a single `succeeded: False` record; the
cleanup command still runs (exactly once when truthy). -/
theorem repeat_zero_yields_failure (name : String) (code : CmdArg)
    (code_env : Option Env) (setup cleanup : Option CmdArg)
    (setup_env cleanup_env : Option Env) (sout cout : String)
    (execs : Nat → ExecRes ℚ) :
    pyRun (mkCmdBenchmark name code code_env 0 setup setup_env cleanup cleanup_env)
        (ProcRes.ok sout) execs (ProcRes.ok cout) =
      ⟨RunOutcome.returns
          [ScalarRecord.failure (pyTraceback "ValueError: min() arg is an empty sequence")],
        0, if truthyCmd (normalizeOptCmd cleanup) then 1 else 0⟩ := by
  have hsetup : setupOutcome
      (mkCmdBenchmark name code code_env 0 setup setup_env cleanup cleanup_env)
      (ProcRes.ok sout) = ProcRes.ok (if truthyCmd (normalizeOptCmd setup) then sout else "") := by
    unfold setupOutcome mkCmdBenchmark
    split <;> rfl
  unfold pyRun
  rw [hsetup]
  show finallyCleanup _ _ _ _ = _
  unfold finallyCleanup mkCmdBenchmark
  split <;> rfl

/-- C3: when some iteration's measurement fails (non-zero exit, pattern not
found, or spawn error — all reaching the loop as a raised `_exec`), no
further iterations run (the failing one is the last `_exec` call) and the
run's entire output is exactly one `Failure` record carrying the captured
diagnostic, with no earlier successes emitted; this holds for the shared
scalar `run` (timing and grep variants) and for the perf `run`. -/
theorem iteration_failure_aborts_run (b : CmdBenchmark) (sout cout d : String)
    (execs : Nat → ExecRes ℚ) (pexecs : Nat → ExecRes (List (String × String)))
    (k pk : Nat) (hk : k < b.repeatN) (hpk : pk < b.repeatN)
    (hok : ∀ j, j < k → ∃ v, execs j = ExecRes.ok v)
    (hexn : execs k = ExecRes.exn d)
    (hpok : ∀ j, j < pk → ∃ ev, pexecs j = ExecRes.ok ev)
    (hpexn : pexecs pk = ExecRes.exn d) :
    pyRun b (ProcRes.ok sout) execs (ProcRes.ok cout) =
      ⟨RunOutcome.returns [ScalarRecord.failure (pyTraceback d)], k + 1,
        if truthyCmd b.cleanup then 1 else 0⟩ ∧
    pyRunPerf b (ProcRes.ok sout) pexecs (ProcRes.ok cout) =
      ⟨RunOutcome.returns [PerfRecord.failure (pyTraceback d)], pk + 1,
        if truthyCmd b.cleanup then 1 else 0⟩ := by
  have hloop : execLoop execs 0 b.repeatN [] = Sum.inr (k, d) := by
    have h := execLoop_exn execs d k b.repeatN 0 []
      (fun j hj => by simpa using hok j hj) (by simpa using hexn) hk
    simpa using h
  have hploop : execLoop pexecs 0 b.repeatN [] = Sum.inr (pk, d) := by
    have h := execLoop_exn pexecs d pk b.repeatN 0 []
      (fun j hj => by simpa using hpok j hj) (by simpa using hpexn) hpk
    simpa using h
  constructor
  · rw [pyRun_ok_setup, hloop]
  · rw [pyRunPerf_ok_setup, hploop]

/-- C3 witness: at `repeat = 2` with iteration 0 succeeding and iteration 1
raising `boom`, both run variants return exactly one failure record after
two `_exec` calls, and the truthy cleanup command is spawned once. -/
theorem iteration_failure_aborts_run_witness :
    pyRun (mkCmdBenchmark "w3" (Sum.inr ["prog"]) none 2 none none
        (some (Sum.inr ["cleanup-cmd"])) none)
        (ProcRes.ok "")
        (fun j => if j = 0 then ExecRes.ok 1 else ExecRes.exn "boom")
        (ProcRes.ok "") =
      ⟨RunOutcome.returns [ScalarRecord.failure (pyTraceback "boom")], 2, 1⟩ ∧
    pyRunPerf (mkCmdBenchmark "w3" (Sum.inr ["prog"]) none 2 none none
        (some (Sum.inr ["cleanup-cmd"])) none)
        (ProcRes.ok "")
        (fun j => if j = 0 then ExecRes.ok [("s", "1")] else ExecRes.exn "boom")
        (ProcRes.ok "") =
      ⟨RunOutcome.returns [PerfRecord.failure (pyTraceback "boom")], 2, 1⟩ := by
  have h := iteration_failure_aborts_run
    (mkCmdBenchmark "w3" (Sum.inr ["prog"]) none 2 none none
      (some (Sum.inr ["cleanup-cmd"])) none)
    "" "" "boom"
    (fun j => if j = 0 then ExecRes.ok 1 else ExecRes.exn "boom")
    (fun j => if j = 0 then ExecRes.ok [("s", "1")] else ExecRes.exn "boom")
    1 1 (by decide) (by decide)
    (fun j hj => ⟨1, by
      have hj0 : j = 0 := by omega
      subst hj0
      rfl⟩)
    rfl
    (fun j hj => ⟨[("s", "1")], by
      have hj0 : j = 0 := by omega
      subst hj0
      rfl⟩)
    rfl
  simpa [mkCmdBenchmark, normalizeOptCmd, normalizeCmd, truthyCmd] using h

/-- C4: when every scheduled iteration succeeds, the scalar `run` returns
exactly one success record whose fields are the minimum, maximum,
arithmetic mean, median and population variance (the emitted standard
deviation being the square root of the latter) of the measured values; in
particular the measurements `[1, 2, 3]` give `min = 1`, `max = 3`,
`mean = 2`, `median = 2` and `std = √(2/3)`. -/
theorem all_success_aggregates (b : CmdBenchmark) (sout cout : String)
    (vs : List ℚ) (hlen : b.repeatN = vs.length) (hne : vs ≠ []) :
    pyRun b (ProcRes.ok sout) (fun k => ExecRes.ok (vs.getD k 0)) (ProcRes.ok cout) =
      ⟨RunOutcome.returns
          [ScalarRecord.success
            ⟨listMin vs, listMax vs, pyMean vs, pyMedian vs, pyVar vs⟩],
        b.repeatN, if truthyCmd b.cleanup then 1 else 0⟩ ∧
    (listMin [1, 2, 3] = 1 ∧ listMax [1, 2, 3] = 3 ∧ pyMean [1, 2, 3] = 2 ∧
      pyMedian [1, 2, 3] = 2 ∧ pyVar [1, 2, 3] = 2 / 3 ∧
      Real.sqrt ((pyVar [1, 2, 3] : ℚ) : ℝ) = Real.sqrt (2 / 3)) := by
  constructor
  · have hloop : execLoop (fun k => ExecRes.ok (vs.getD k 0)) 0 b.repeatN [] =
        Sum.inl vs := by
      have h := execLoop_ok (fun k => vs.getD k 0) _ (fun k => rfl) b.repeatN 0 []
      rw [h]
      simp only [List.reverse_nil, List.nil_append, Nat.zero_add]
      rw [hlen, range_map_getD]
    rw [pyRun_ok_setup, hloop]
    cases vs with
    | nil => exact absurd rfl hne
    | cons v tl => rfl
  · refine ⟨by norm_num [listMin], by norm_num [listMax], by norm_num [pyMean],
      by norm_num [pyMedian, sortQ, insertSorted], by norm_num [pyVar, pyMean], ?_⟩
    have hv : pyVar [1, 2, 3] = 2 / 3 := by norm_num [pyVar, pyMean]
    rw [hv]
    norm_num

/-- C4 witness: a `repeat = 3` benchmark whose iterations measure
`[1, 2, 3]` yields one success record with `min = 1`, `max = 3`,
`mean = 2`, `median = 2` and variance `2/3` — so `std = √(2/3)`. -/
theorem all_success_aggregates_witness :
    pyRun (mkCmdBenchmark "w4" (Sum.inr ["prog"]) none 3 none none none none)
        (ProcRes.ok "") (fun k => ExecRes.ok (([1, 2, 3] : List ℚ).getD k 0))
        (ProcRes.ok "") =
      ⟨RunOutcome.returns [ScalarRecord.success ⟨1, 3, 2, 2, 2 / 3⟩], 3, 0⟩ ∧
    Real.sqrt ((pyVar [1, 2, 3] : ℚ) : ℝ) = Real.sqrt (2 / 3) := by
  have h := all_success_aggregates
    (mkCmdBenchmark "w4" (Sum.inr ["prog"]) none 3 none none none none)
    "" "" [1, 2, 3] rfl (by simp)
  refine ⟨?_, h.2.2.2.2.2.2⟩
  rw [h.1]
  norm_num [mkCmdBenchmark, normalizeOptCmd, truthyCmd, listMin, listMax, pyMean,
    pyMedian, pyVar, sortQ, insertSorted]

/-- C7: when the pattern matches the combined stdout+stderr blob, the
iteration's measurement is the captured group parsed as a float; when it
does not match, the iteration raises and the run returns exactly one
`Failure` record whose diagnostic (the traceback of `Exception('no
match!')`) contains the text `no match`. -/
theorem grep_match_and_no_match (pat : String → Option String)
    (parseFloat : String → Option ℚ) :
    (∀ out g v, pat out = some g → parseFloat g = some v →
      grepExec pat parseFloat (ProcRes.ok out) = ExecRes.ok v) ∧
    (∀ out, pat out = none →
      grepExec pat parseFloat (ProcRes.ok out) = ExecRes.exn "Exception: no match!") ∧
    (∀ (b : CmdBenchmark) (sout cout out : String), pat out = none → 0 < b.repeatN →
      pyRun b (ProcRes.ok sout) (fun _ => grepExec pat parseFloat (ProcRes.ok out))
          (ProcRes.ok cout) =
        ⟨RunOutcome.returns [ScalarRecord.failure (pyTraceback "Exception: no match!")],
          1, if truthyCmd b.cleanup then 1 else 0⟩) ∧
    (∃ pre post, pyTraceback "Exception: no match!" = pre ++ "no match" ++ post) := by
  refine ⟨?_, ?_, ?_, ?_⟩
  · intro out g v hg hv
    simp [grepExec, hg, hv]
  · intro out hg
    simp [grepExec, hg]
  · intro b sout cout out hg hr
    have hloop : execLoop (fun _ => grepExec pat parseFloat (ProcRes.ok out))
        0 b.repeatN [] = Sum.inr (0, "Exception: no match!") := by
      have h := execLoop_exn (fun _ => grepExec pat parseFloat (ProcRes.ok out))
        "Exception: no match!" 0 b.repeatN 0 []
        (fun j hj => absurd hj (Nat.not_lt_zero j))
        (by simp [grepExec, hg]) hr
      simpa using h
    rw [pyRun_ok_setup, hloop]
  · exact ⟨"Traceback (most recent call last):\nException: ", "!", rfl⟩

/-- C7 witness: output `Result: 42.5ms` with a pattern capturing `42.5`
measures `42.5 = 85/2`; output with no match raises `no match!`, and a
one-iteration run turns it into a single failure record. -/
theorem grep_match_and_no_match_witness :
    grepExec (fun out => if out = "Result: 42.5ms" then some "42.5" else none)
        (fun g => if g = "42.5" then some (85 / 2) else none)
        (ProcRes.ok "Result: 42.5ms") = ExecRes.ok (85 / 2) ∧
    grepExec (fun out => if out = "Result: 42.5ms" then some "42.5" else none)
        (fun g => if g = "42.5" then some (85 / 2) else none)
        (ProcRes.ok "no numbers here") = ExecRes.exn "Exception: no match!" ∧
    pyRun (mkCmdBenchmark "w7" (Sum.inr ["prog"]) none 1 none none none none)
        (ProcRes.ok "")
        (fun _ =>
          grepExec (fun out => if out = "Result: 42.5ms" then some "42.5" else none)
            (fun g => if g = "42.5" then some (85 / 2) else none)
            (ProcRes.ok "no numbers here"))
        (ProcRes.ok "") =
      ⟨RunOutcome.returns [ScalarRecord.failure (pyTraceback "Exception: no match!")],
        1, 0⟩ := by
  have h := grep_match_and_no_match
    (fun out => if out = "Result: 42.5ms" then some "42.5" else none)
    (fun g => if g = "42.5" then some (85 / 2) else none)
  refine ⟨h.1 "Result: 42.5ms" "42.5" (85 / 2) rfl rfl,
    h.2.1 "no numbers here" (by decide), ?_⟩
  have h3 := h.2.2.1
    (mkCmdBenchmark "w7" (Sum.inr ["prog"]) none 1 none none none none)
    "" "" "no numbers here" (by decide) (by decide)
  simpa [mkCmdBenchmark, normalizeOptCmd, truthyCmd] using h3

/-- C8: perf output is parsed line-by-line as comma-separated fields — lines
with fewer than two fields are skipped, field 1 keys the series and field 0
is its value — and a run whose iterations all succeed emits one
`succeeded: True` sample record per (iteration, key) pair with no
aggregation; in particular output `123,cache-misses\n456,branch-misses\n`
at `repeat = 2` yields exactly four sample records, two per series key. -/
theorem perf_run_emits_samples (b : CmdBenchmark) (sout cout : String)
    (evs : Nat → List (String × String)) :
    pyRunPerf b (ProcRes.ok sout) (fun k => ExecRes.ok (evs k)) (ProcRes.ok cout) =
      ⟨RunOutcome.returns (((List.range b.repeatN).map evs).flatMap perfSamples),
        b.repeatN, if truthyCmd b.cleanup then 1 else 0⟩ ∧
    parsePerf "123,cache-misses\n456,branch-misses\n" =
      [("cache-misses", "123"), ("branch-misses", "456")] ∧
    (∀ (ev : List (String × String)) (line : String),
      (pySplitChar ',' line).length < 2 → parsePerfLine ev line = ev) ∧
    pyRunPerf (mkCmdBenchmark "p" (Sum.inr ["prog"]) none 2 none none none none)
        (ProcRes.ok "")
        (fun _ => perfExec (ProcRes.ok "123,cache-misses\n456,branch-misses\n"))
        (ProcRes.ok "") =
      ⟨RunOutcome.returns
          [PerfRecord.sample "cache-misses" "123", PerfRecord.sample "branch-misses" "456",
            PerfRecord.sample "cache-misses" "123", PerfRecord.sample "branch-misses" "456"],
        2, 0⟩ := by
  refine ⟨?_, by decide, ?_, by decide⟩
  · have hloop : execLoop (fun k => ExecRes.ok (evs k)) 0 b.repeatN [] =
        Sum.inl ((List.range b.repeatN).map evs) := by
      have h := execLoop_ok evs _ (fun k => rfl) b.repeatN 0 []
      simpa using h
    rw [pyRunPerf_ok_setup, hloop]
  · intro ev line hlt
    cases hc : pySplitChar ',' line with
    | nil => simp [parsePerfLine, hc]
    | cons x xs =>
        cases xs with
        | nil => simp [parsePerfLine, hc]
        | cons y ys =>
            rw [hc] at hlt
            simp at hlt
            omega

/-- C8 witness: a malformed line leaves the event dict unchanged, and a
two-iteration all-success perf run emits one sample per iteration per key. -/
theorem perf_run_emits_samples_witness :
    parsePerfLine [("k", "1")] "noseparator" = [("k", "1")] ∧
    pyRunPerf (mkCmdBenchmark "w8" (Sum.inr ["prog"]) none 2 none none none none)
        (ProcRes.ok "") (fun _ => ExecRes.ok [("s", "v")]) (ProcRes.ok "") =
      ⟨RunOutcome.returns [PerfRecord.sample "s" "v", PerfRecord.sample "s" "v"], 2, 0⟩ := by
  have h := perf_run_emits_samples
    (mkCmdBenchmark "w8" (Sum.inr ["prog"]) none 2 none none none none)
    "" "" (fun _ => [("s", "v")])
  refine ⟨h.2.2.1 [("k", "1")] "noseparator" (by decide), ?_⟩
  rw [h.1]
  decide

end Vbench
